import Mathlib

/-!
Verification of the d3p protocol adapter (manifest-driven service tools).

The development embeds the adapter logic shared by the four host shims of
the repository: `d3p_openai_tool.py`, `d3p_mcp_tool.py`,
`d3p_langchain_tool.py` and `d3p_crewai_tool.py`.  JSON parsing
(`json.loads`) and the HTTP transport (`requests.post`) are external
library calls; they are passed to the embedded dispatchers as explicit
function parameters, and the outbound requests a dispatcher issues are
returned alongside its result so that network behaviour is observable.
-/

namespace D3P

/-- JSON values, the payloads exchanged with remote services. -/
inductive Json where
  | null : Json
  | bool (b : Bool) : Json
  | num (n : Int) : Json
  | str (s : String) : Json
  | arr (elems : List Json) : Json
  | obj (fields : List (String × Json)) : Json

/-- One property of an input schema: the manifest stores, per field name,
an object with optional `type` and `description` strings. -/
structure PropSpec where
  type : Option String
  description : Option String
deriving DecidableEq

/-- One entry of the `services` array of the manifest.  Optional keys are
`Option`s; `pricing` and `input_schema` are nested objects whose inner key
(`sats`, `properties`) may itself be absent, hence the nested `Option`s,
mirroring the chained `.get` calls in the source. -/
structure ManifestEntry where
  service_id : String
  name : Option String
  description : Option String
  capability_category : Option String
  pricing : Option (Option Nat)
  endpoint : Option String
  input_schema : Option (Option (List (String × PropSpec)))
deriving DecidableEq

/-- Python `svc.get("pricing", {}).get("sats", 0)`. -/
def ManifestEntry.sats (e : ManifestEntry) : Nat :=
  (e.pricing.getD none).getD 0

/-- Python `svc.get("input_schema", {}).get("properties", {})`. -/
def ManifestEntry.props (e : ManifestEntry) : List (String × PropSpec) :=
  (e.input_schema.getD none).getD []

/-- Python `s.startswith(p)`. -/
def startswith (s p : String) : Bool :=
  p.data.isPrefixOf s.data

/-- Python string slice `s[:n]`: the first `n` characters of `s`. -/
def pyslice (s : String) (n : Nat) : String :=
  ⟨s.data.take n⟩

/-- Endpoint resolution performed at load time by every shim:
`endpoint = svc.get("endpoint", f"/api/services/SID")`; if it does not
start with `"http"` it is prefixed with the base URL. -/
def resolveEndpoint (base_url service_id : String) (endpoint : Option String) : String :=
  let ep := endpoint.getD ("/api/services/" ++ service_id)
  if startswith ep "http" then ep else base_url ++ ep

/-- A loaded service: the manifest entry together with its resolved
`_endpoint` (the `{**svc, "_endpoint": endpoint}` dict of the source). -/
structure Service where
  entry : ManifestEntry
  endpoint : String
deriving DecidableEq

/-- `mkService` builds the stored service record for one manifest entry. -/
def mkService (base_url : String) (e : ManifestEntry) : Service :=
  ⟨e, resolveEndpoint base_url e.service_id e.endpoint⟩

/-- Python `dict.get(k)` over an insertion-ordered association list. -/
def dictGet {α : Type} (k : String) : List (String × α) → Option α
  | [] => none
  | p :: rest => if p.1 = k then some p.2 else dictGet k rest

/-- Python `d[k] = v` over an insertion-ordered association list:
an existing key keeps its position, a new key is appended. -/
def dictInsert {α : Type} (k : String) (v : α) : List (String × α) → List (String × α)
  | [] => [(k, v)]
  | p :: rest => if p.1 = k then (k, v) :: rest else p :: dictInsert k v rest

/-- The discovery loop of `D3POpenAI.__init__`: fold the manifest entries
into the `_services` table keyed by `f"d3p_SID"`. -/
def buildServicesAux (base_url : String) :
    List ManifestEntry → List (String × Service) → List (String × Service)
  | [], table => table
  | e :: rest, table =>
      buildServicesAux base_url rest
        (dictInsert ("d3p_" ++ e.service_id) (mkService base_url e) table)

/-- Discovery: manifest entries to the `_services` table. -/
def buildServices (base_url : String) (manifest : List ManifestEntry) :
    List (String × Service) :=
  buildServicesAux base_url manifest []

/-- Outcome of one dispatch: either a JSON-serialisable value
(`json.dumps(...)` in the source) or a raw text fragment (`resp.text[:500]`). -/
inductive CallResult where
  | jsonOut (value : Json) : CallResult
  | textOut (text : String) : CallResult

/-- One outbound HTTP POST issued by a dispatcher. -/
structure HttpRequest where
  url : String
  body : Json
  headers : List (String × String)

/-- The remote response: status code, the JSON decode of the body when the
body is valid JSON (`resp.json()`), and the raw body text (`resp.text`). -/
structure HttpResponse where
  status_code : Nat
  json : Option Json
  text : String

/-- Header construction shared by all dispatchers: `Content-Type` always,
and the payment-bypass header `X-D3P-Cert-Test: true` only in mock mode. -/
def mkHeaders (mock_payments : Bool) : List (String × String) :=
  if mock_payments then
    [("Content-Type", "application/json"), ("X-D3P-Cert-Test", "true")]
  else
    [("Content-Type", "application/json")]

/-- The L402 payment-required error object shared by the dispatchers. -/
def paymentRequiredJson (sats : Nat) : Json :=
  .obj [("error", .str "L402 payment required"),
        ("status", .num 402),
        ("message", .str ("Service requires " ++ toString sats ++ " sats via Lightning"))]

/-- `D3POpenAI.execute` from `d3p_openai_tool.py`: look up the function
name in the service table, parse the JSON arguments, POST to the resolved
endpoint, translate a live-mode 402, and normalise the response body.
Returns the result together with the list of outbound requests issued. -/
def execute (services : List (String × Service)) (mock_payments : Bool)
    (parseJson : String → Option Json) (transport : HttpRequest → HttpResponse)
    (function_name arguments : String) : CallResult × List HttpRequest :=
  match dictGet function_name services with
  | none => (.jsonOut (.obj [("error", .str ("Unknown function: " ++ function_name))]), [])
  | some svc =>
    match parseJson arguments with
    | none => (.jsonOut (.obj [("error", .str "Invalid JSON arguments")]), [])
    | some data =>
      let req : HttpRequest := ⟨svc.endpoint, data, mkHeaders mock_payments⟩
      let resp := transport req
      if resp.status_code = 402 ∧ mock_payments = false then
        (.jsonOut (paymentRequiredJson svc.entry.sats), [req])
      else
        match resp.json with
        | some j => (.jsonOut j, [req])
        | none => (.textOut (pyslice resp.text 500), [req])

/-- One OpenAI function definition produced by
`D3POpenAI.tool_definitions` (the `function` object: name, description,
parameter schema with its `properties` and `required` lists). -/
structure FunctionDef where
  name : String
  description : String
  param_type : String
  properties : List (String × PropSpec)
  required : List String
deriving DecidableEq

/-- The per-service body of the `tool_definitions` loop. -/
def toolDefinition (func_name : String) (svc : Service) : FunctionDef :=
  let props := svc.entry.props
  { name := func_name
    description := (svc.entry.description.getD "") ++ " [" ++
      (svc.entry.capability_category.getD "") ++ ", " ++
      toString svc.entry.sats ++ " sats]"
    param_type := "object"
    properties := props
    required := props.map Prod.fst }

/-- `D3POpenAI.tool_definitions`: one function definition per table entry. -/
def tool_definitions (services : List (String × Service)) : List FunctionDef :=
  services.map fun p => toolDefinition p.1 p.2

/-- One record of `D3POpenAI.list_services`. -/
structure ServiceSummary where
  function : String
  service_id : String
  name : String
  category : String
  sats : Nat
deriving DecidableEq

/-- `D3POpenAI.list_services`: read-only projection over the table. -/
def list_services (services : List (String × Service)) : List ServiceSummary :=
  services.map fun p =>
    ⟨p.1, p.2.entry.service_id, p.2.entry.name.getD "",
     p.2.entry.capability_category.getD "", p.2.entry.sats⟩

/-- `_call_service` from `d3p_mcp_tool.py`: POST, translate a live-mode
402, otherwise return the JSON body or a wrapped 500-character text
fragment with the status code. -/
def call_service (mock_payments : Bool) (transport : HttpRequest → HttpResponse)
    (endpoint : String) (data : Json) (sats : Nat) : Json × List HttpRequest :=
  let req : HttpRequest := ⟨endpoint, data, mkHeaders mock_payments⟩
  let resp := transport req
  if resp.status_code = 402 ∧ mock_payments = false then
    (paymentRequiredJson sats, [req])
  else
    match resp.json with
    | some j => (j, [req])
    | none => (.obj [("raw", .str (pyslice resp.text 500)),
                     ("status", .num resp.status_code)], [req])

/-- The `tool_fn` closure registered per service by `_make_tool` in
`d3p_mcp_tool.py`: parse the params string, then delegate to
`call_service`. -/
def tool_fn (mock_payments : Bool) (parseJson : String → Option Json)
    (transport : HttpRequest → HttpResponse) (endpoint : String) (sats : Nat)
    (params : String) : Json × List HttpRequest :=
  match parseJson params with
  | none => (.obj [("error", .str "Invalid JSON")], [])
  | some data => call_service mock_payments transport endpoint data sats

/-- The per-property fragment list of the MCP `_param_doc` string:
`f"K: V.get('description', V.get('type',''))"` joined with `"; "`. -/
def param_doc (props : List (String × PropSpec)) : String :=
  String.intercalate "; "
    (props.map fun kv => kv.1 ++ ": " ++ (kv.2.description.getD (kv.2.type.getD "")))

/-- The docstring `_make_tool` attaches to each MCP tool:
`f"DESC. Input (JSON string): PARAM_DOC or 'see docs'"`. -/
def tool_doc (desc : String) (pd : String) : String :=
  desc ++ ". Input (JSON string): " ++ (if pd = "" then "see docs" else pd)

/-- One record of the MCP `list_services` summary. -/
structure McpServiceSummary where
  service_id : String
  name : String
  category : String
  sats : Nat
  description : String
deriving DecidableEq

/-- `list_services` from `d3p_mcp_tool.py`: read-only projection over the
loaded services, in manifest order. -/
def mcp_list_services (services : List Service) : List McpServiceSummary :=
  services.map fun s =>
    ⟨s.entry.service_id, s.entry.name.getD "",
     s.entry.capability_category.getD "", s.entry.sats,
     s.entry.description.getD ""⟩

/-- The fields of a LangChain/CrewAI `D3PTool` instance set by
`D3PTool.__init__` (identical in `d3p_langchain_tool.py` and
`d3p_crewai_tool.py`). -/
@[ext]
structure D3PTool where
  name : String
  description : String
  service_id : String
  endpoint : String
  pricing_sats : Nat
  mock_payments : Bool
  base_url : String
  service_schema : Option (List (String × PropSpec))
deriving DecidableEq

/-- The `fields` string of `D3PTool.__init__`:
`", ".join(f'K (V.get("type",""))' ...)`. -/
def fieldsDoc (props : List (String × PropSpec)) : String :=
  String.intercalate ", " (props.map fun kv => kv.1 ++ " (" ++ kv.2.type.getD "" ++ ")")

/-- `D3PTool.__init__`: derive every tool field from the (possibly absent)
manifest entry, with the documented defaults. -/
def buildTool (service_id : String) (manifest_entry : Option ManifestEntry)
    (mock_payments : Bool) (base_url : String) : D3PTool :=
  let svc_desc := (manifest_entry.bind (fun e => e.description)).getD
    ("Call the " ++ service_id ++ " d3p service")
  let category := (manifest_entry.bind (fun e => e.capability_category)).getD ""
  let sats := ((manifest_entry.bind (fun e => e.pricing)).getD none).getD 0
  let in_schema := (manifest_entry.bind (fun e => e.input_schema)).getD none
  let props := in_schema.getD []
  let fields := fieldsDoc props
  { name := "d3p_" ++ service_id
    description := svc_desc ++ " [" ++ category ++ ", " ++ toString sats ++
      " sats]. Input fields: " ++ (if fields = "" then "see docs" else fields) ++
      ". Pass a JSON string as payload."
    service_id := service_id
    endpoint := resolveEndpoint base_url service_id (manifest_entry.bind (fun e => e.endpoint))
    pricing_sats := sats
    mock_payments := mock_payments
    base_url := base_url
    service_schema := in_schema }

/-- `D3PTool._run`: parse the payload, POST, translate a live-mode 402,
normalise the response body. -/
def run (tool : D3PTool) (parseJson : String → Option Json)
    (transport : HttpRequest → HttpResponse) (payload : String) :
    CallResult × List HttpRequest :=
  match parseJson payload with
  | none => (.jsonOut (.obj [("error", .str "Invalid JSON payload")]), [])
  | some data =>
    let req : HttpRequest := ⟨tool.endpoint, data, mkHeaders tool.mock_payments⟩
    let resp := transport req
    if resp.status_code = 402 ∧ tool.mock_payments = false then
      (.jsonOut (paymentRequiredJson tool.pricing_sats), [req])
    else
      match resp.json with
      | some j => (.jsonOut j, [req])
      | none => (.textOut (pyslice resp.text 500), [req])

/-- A schema-free manifest entry used in concrete evaluations. -/
def entryAlpha : ManifestEntry :=
  ⟨"alpha", none, none, none, none, none, none⟩

/-- A second concrete manifest entry with a distinct service id. -/
def entryBeta : ManifestEntry :=
  ⟨"beta", none, none, none, some (some 7), some "https://beta.example/run", none⟩

/-- A concrete manifest entry whose `name` field is absent. -/
def entryNoName : ManifestEntry :=
  ⟨"svc-x", none, some "does things", some "cat", some (some 3), none, none⟩

/-- Manifest entry of the specification example: `btc-price` with a
relative endpoint, a 5-sat price and one string-typed input property. -/
def btcEntry : ManifestEntry :=
  ⟨"btc-price", none, none, none, some (some 5),
   some "/api/services/btc-price",
   some (some [("currency", ⟨some "string", none⟩)])⟩

/-- A loaded service over a schema-free entry, used in concrete
evaluations. -/
def svcAlpha : Service :=
  ⟨entryAlpha, "https://h.example/api/services/alpha"⟩

end D3P

open D3P

/-- Two strings with the same character data are equal. -/
theorem string_data_inj {a b : String} (h : a.data = b.data) : a = b := by
  cases a
  cases b
  exact congrArg String.mk h

/-- The tool-name transform is injective: equal prefixed names come from
equal service ids. -/
theorem d3pName_inj {a b : String} (h : "d3p_" ++ a = "d3p_" ++ b) : a = b := by
  apply string_data_inj
  have h2 := congrArg String.data h
  rw [String.data_append, String.data_append] at h2
  exact List.append_cancel_left h2

/-- Inserting a fresh key into a dict appends the binding at the end. -/
theorem dictInsert_fresh {α : Type} (k : String) (v : α)
    (t : List (String × α)) (h : k ∉ t.map Prod.fst) :
    dictInsert k v t = t ++ [(k, v)] := by
  induction t with
  | nil => rfl
  | cons p rest ih =>
    simp only [List.map_cons, List.mem_cons, not_or] at h
    simp only [dictInsert]
    rw [if_neg (fun e => h.1 e.symm), ih h.2]
    simp

/-- Every binding of an updated dict is an old binding or the new one. -/
theorem dictInsert_mem {α : Type} (k : String) (v : α)
    (t : List (String × α)) (q : String × α) (hq : q ∈ dictInsert k v t) :
    q ∈ t ∨ q = (k, v) := by
  induction t with
  | nil => simpa [dictInsert] using hq
  | cons p rest ih =>
    simp only [dictInsert] at hq
    by_cases hpk : p.1 = k
    · rw [if_pos hpk] at hq
      rcases List.mem_cons.mp hq with h | h
      · exact Or.inr h
      · exact Or.inl (List.mem_cons_of_mem _ h)
    · rw [if_neg hpk] at hq
      rcases List.mem_cons.mp hq with h | h
      · exact Or.inl (h ▸ List.mem_cons_self _ _)
      · rcases ih h with h2 | h2
        · exact Or.inl (List.mem_cons_of_mem _ h2)
        · exact Or.inr h2

/-- Keys of the discovery table: when the pending service ids are fresh
for the accumulated table and pairwise distinct, the final keys are the
accumulated keys followed by the derived tool names in manifest order. -/
theorem buildServicesAux_keys (base_url : String) (ms : List ManifestEntry)
    (t : List (String × Service))
    (hfresh : ∀ m ∈ ms, ("d3p_" ++ m.service_id) ∉ t.map Prod.fst)
    (hnodup : (ms.map ManifestEntry.service_id).Nodup) :
    (buildServicesAux base_url ms t).map Prod.fst
      = t.map Prod.fst ++ ms.map (fun e => "d3p_" ++ e.service_id) := by
  induction ms generalizing t with
  | nil => simp [buildServicesAux]
  | cons e rest ih =>
    simp only [List.map_cons] at hnodup
    have hcons := List.nodup_cons.mp hnodup
    have hins := dictInsert_fresh ("d3p_" ++ e.service_id) (mkService base_url e) t
      (hfresh e (List.mem_cons_self _ _))
    simp only [buildServicesAux]
    rw [ih]
    · rw [hins]
      simp [List.map_append]
    · intro m hm
      rw [hins]
      simp only [List.map_append, List.mem_append, List.map_cons, List.map_nil,
        List.mem_singleton, not_or]
      constructor
      · exact hfresh m (List.mem_cons_of_mem _ hm)
      · intro heq
        have hsid := d3pName_inj heq
        exact hcons.1 (hsid ▸ List.mem_map_of_mem ManifestEntry.service_id hm)
    · exact hcons.2

/-- Claim C5: a manifest of N entries with pairwise-distinct service ids
is discovered as exactly N tool descriptors, each keyed by the
deterministic name formed by prefixing the service id, and no two
descriptors share a tool name. -/
theorem c5_discovery_names (base_url : String) (manifest : List ManifestEntry)
    (h : (manifest.map ManifestEntry.service_id).Nodup) :
    (buildServices base_url manifest).length = manifest.length ∧
    (buildServices base_url manifest).map Prod.fst
      = manifest.map (fun e => "d3p_" ++ e.service_id) ∧
    ((buildServices base_url manifest).map Prod.fst).Nodup := by
  have hkeys : (buildServices base_url manifest).map Prod.fst
      = manifest.map (fun e => "d3p_" ++ e.service_id) := by
    have hk := buildServicesAux_keys base_url manifest [] (by simp) h
    simpa [buildServices] using hk
  refine ⟨?_, hkeys, ?_⟩
  · have hlen := congrArg List.length hkeys
    simpa using hlen
  · rw [hkeys]
    have hmm : manifest.map (fun e => "d3p_" ++ e.service_id)
        = (manifest.map ManifestEntry.service_id).map (fun s => "d3p_" ++ s) := by
      simp [List.map_map]
    rw [hmm]
    exact h.map (fun a b hab => d3pName_inj hab)

/-- Appending cannot destroy an existing prefix of the base string. -/
theorem startswith_append (base ep : String)
    (h : startswith base "http" = true) :
    startswith (base ++ ep) "http" = true := by
  unfold startswith at h ⊢
  rw [String.data_append]
  rw [ List.isPrefixOf_iff_prefix] at h ⊢
  exact h.trans (List.prefix_append _ _)

/-- Every service stored by the discovery loop carries an endpoint that
starts with "http", provided the base URL does and the accumulated table
already satisfies the invariant. -/
theorem buildServicesAux_resolved (base_url : String) (ms : List ManifestEntry)
    (t : List (String × Service))
    (hbase : startswith base_url "http" = true)
    (ht : ∀ p ∈ t, startswith (Service.endpoint p.2) "http" = true) :
    ∀ p ∈ buildServicesAux base_url ms t,
      startswith (Service.endpoint p.2) "http" = true := by
  induction ms generalizing t with
  | nil => simpa [buildServicesAux] using ht
  | cons e rest ih =>
    intro p hp
    simp only [buildServicesAux] at hp
    refine ih _ ?_ p hp
    intro q hq
    rcases dictInsert_mem _ _ _ _ hq with h | h
    · exact ht q h
    · rw [h]
      simp only [mkService, resolveEndpoint]
      split
      · assumption
      · exact startswith_append _ _ hbase

/-- Claim C6: endpoints are resolved once at load time — an endpoint that
starts with "http" is kept unchanged, any other endpoint is prefixed by
the base URL; the example entry resolves to the fully-qualified URL, and
every stored endpoint starts with "http" whenever the base URL does, so
dispatch never sees an unresolved relative path. -/
theorem c6_endpoint_resolution :
    (∀ base sid ep, startswith ep "http" = true →
      resolveEndpoint base sid (some ep) = ep) ∧
    (∀ base sid ep, startswith ep "http" = false →
      resolveEndpoint base sid (some ep) = base ++ ep) ∧
    (buildServices "https://example.test" [btcEntry]
      = [("d3p_btc-price",
          ⟨btcEntry, "https://example.test/api/services/btc-price"⟩)]) ∧
    (tool_definitions (buildServices "https://example.test" [btcEntry])
      = [⟨"d3p_btc-price", " [, 5 sats]", "object",
          [("currency", ⟨some "string", none⟩)], ["currency"]⟩]) ∧
    (∀ base ms, startswith base "http" = true →
      ∀ p ∈ buildServices base ms, startswith (Service.endpoint p.2) "http" = true) := by
  refine ⟨?_, ?_, by decide, by decide, ?_⟩
  · intro base sid ep h
    simp [resolveEndpoint, h]
  · intro base sid ep h
    simp [resolveEndpoint, h]
  · intro base ms hbase p hp
    exact buildServicesAux_resolved base ms [] hbase (by simp) p hp

/-- Witness for C6: the resolution rules and the resolved-endpoint
invariant evaluated at concrete inputs. -/
theorem c6_endpoint_resolution_witness :
    (startswith "https://abs.example/x" "http" = true ∧
      resolveEndpoint "https://b.example" "sid" (some "https://abs.example/x")
        = "https://abs.example/x") ∧
    (startswith "/rel" "http" = false ∧
      resolveEndpoint "https://b.example" "sid" (some "/rel")
        = "https://b.example/rel") ∧
    (startswith "https://example.test" "http" = true ∧
      ("d3p_btc-price",
        (⟨btcEntry, "https://example.test/api/services/btc-price"⟩ : Service))
          ∈ buildServices "https://example.test" [btcEntry] ∧
      startswith
        (Service.endpoint
          (⟨btcEntry, "https://example.test/api/services/btc-price"⟩ : Service))
        "http" = true) :=
  ⟨⟨by decide, c6_endpoint_resolution.1 "https://b.example" "sid"
      "https://abs.example/x" (by decide)⟩,
   ⟨by decide, c6_endpoint_resolution.2.1 "https://b.example" "sid"
      "/rel" (by decide)⟩,
   ⟨by decide, by decide,
    c6_endpoint_resolution.2.2.2.2 "https://example.test" [btcEntry] (by decide)
      ("d3p_btc-price", ⟨btcEntry, "https://example.test/api/services/btc-price"⟩)
      (by decide)⟩⟩

/-- Claim C7: building a tool descriptor is total — for a wholly absent
manifest entry every field takes its documented default (price 0, empty
category, generated description, empty schema), and whenever the input
schema declares no properties the summaries fall back to "see docs"
instead of enumerating fields, in both the LangChain/CrewAI constructor
and the MCP tool docstring. -/
theorem c7_build_total_defaults :
    (∀ sid mock base, buildTool sid none mock base =
      { name := "d3p_" ++ sid
        description := "Call the " ++ sid ++
          " d3p service [, 0 sats]. Input fields: see docs. Pass a JSON string as payload."
        service_id := sid
        endpoint := base ++ ("/api/services/" ++ sid)
        pricing_sats := 0
        mock_payments := mock
        base_url := base
        service_schema := none }) ∧
    (∀ sid e mock base, e.props = [] →
      (buildTool sid (some e) mock base).description
        = (e.description.getD ("Call the " ++ sid ++ " d3p service")) ++ " [" ++
          (e.capability_category.getD "") ++ ", " ++ toString e.sats ++
          " sats]. Input fields: " ++ "see docs" ++ ". Pass a JSON string as payload.") ∧
    (∀ desc props, props = ([] : List (String × PropSpec)) →
      tool_doc desc (param_doc props) = desc ++ ". Input (JSON string): " ++ "see docs") ∧
    (∀ fn svc, (Service.entry svc).props = [] →
      (toolDefinition fn svc).properties = [] ∧ (toolDefinition fn svc).required = []) := by
  refine ⟨?_, ?_, ?_, ?_⟩
  · intro sid mock base
    apply D3PTool.ext <;> first
      | rfl
      | (apply string_data_inj
         simp +decide [buildTool, String.data_append, List.append_assoc])
  · intro sid e mock base h
    have hp : ((Option.bind (some e) fun x => x.input_schema).getD none).getD
        ([] : List (String × PropSpec)) = [] := h
    simp only [buildTool, hp]
    rfl
  · intro desc props h
    subst h
    rfl
  · intro fn svc h
    exact ⟨h, by simp [toolDefinition, h]⟩

/-- Witness for C7 at concrete inputs: the fully-defaulted descriptor and
the "see docs" fallbacks. -/
theorem c7_build_total_defaults_witness :
    (buildTool "alpha" none true "https://h.example" =
      { name := "d3p_alpha"
        description :=
          "Call the alpha d3p service [, 0 sats]. Input fields: see docs. Pass a JSON string as payload."
        service_id := "alpha"
        endpoint := "https://h.example/api/services/alpha"
        pricing_sats := 0
        mock_payments := true
        base_url := "https://h.example"
        service_schema := none }) ∧
    (entryAlpha.props = [] ∧
      (buildTool "alpha" (some entryAlpha) true "https://h.example").description =
        "Call the alpha d3p service [, 0 sats]. Input fields: see docs. Pass a JSON string as payload.") ∧
    (tool_doc "Does things" (param_doc []) = "Does things. Input (JSON string): see docs") ∧
    ((Service.entry svcAlpha).props = [] ∧
      (toolDefinition "d3p_alpha" svcAlpha).properties = [] ∧
      (toolDefinition "d3p_alpha" svcAlpha).required = []) :=
  ⟨c7_build_total_defaults.1 "alpha" true "https://h.example",
   ⟨rfl, c7_build_total_defaults.2.1 "alpha" entryAlpha true "https://h.example" rfl⟩,
   c7_build_total_defaults.2.2.1 "Does things" [] rfl,
   ⟨rfl, c7_build_total_defaults.2.2.2 "d3p_alpha" svcAlpha rfl⟩⟩

/-- Claim C8: the derived parameter schema is an object schema whose
properties are exactly the input schema's properties, and whose required
list contains exactly the declared property names. -/
theorem c8_required_lists_all_properties :
    ∀ fn svc,
      (toolDefinition fn svc).param_type = "object" ∧
      (toolDefinition fn svc).properties = (Service.entry svc).props ∧
      (toolDefinition fn svc).required = ((Service.entry svc).props).map Prod.fst ∧
      (∀ k, k ∈ (toolDefinition fn svc).required ↔
        ∃ v, (k, v) ∈ (Service.entry svc).props) := by
  intro fn svc
  refine ⟨rfl, rfl, rfl, fun k => ?_⟩
  constructor
  · intro hk
    rcases List.mem_map.mp hk with ⟨p, hp, hpk⟩
    cases hpk
    exact ⟨p.2, hp⟩
  · rintro ⟨v, hv⟩
    exact List.mem_map.mpr ⟨(k, v), hv, rfl⟩
theorem c5_discovery_names_witness :
    (([entryAlpha, entryBeta].map ManifestEntry.service_id).Nodup) ∧
    ((buildServices "https://h.example" [entryAlpha, entryBeta]).length
        = [entryAlpha, entryBeta].length ∧
     (buildServices "https://h.example" [entryAlpha, entryBeta]).map Prod.fst
        = [entryAlpha, entryBeta].map (fun e => "d3p_" ++ e.service_id) ∧
     ((buildServices "https://h.example" [entryAlpha, entryBeta]).map Prod.fst).Nodup) :=
  ⟨by decide, c5_discovery_names "https://h.example" [entryAlpha, entryBeta] (by decide)⟩


/-- A Python slice of at most n characters has length at most n. -/
theorem pyslice_le (s : String) (n : Nat) : (pyslice s n).length ≤ n := by
  show (s.data.take n).length ≤ n
  rw [List.length_take]
  exact min_le_left _ _

/-- Once the tool is known and the arguments parse, the OpenAI dispatcher
issues exactly one POST to the resolved endpoint with the parsed body and
the mode-dependent headers, whatever the transport answers. -/
theorem execute_requests (services : List (String × Service)) (mock_payments : Bool)
    (parseJson : String → Option Json) (transport : HttpRequest → HttpResponse)
    (fn args : String) (svc : Service) (data : Json)
    (h1 : dictGet fn services = some svc) (h2 : parseJson args = some data) :
    (execute services mock_payments parseJson transport fn args).2
      = [⟨svc.endpoint, data, mkHeaders mock_payments⟩] := by
  simp only [execute, h1, h2]
  split
  · rfl
  · split <;> rfl

/-- Once the payload parses, the LangChain/CrewAI dispatcher issues
exactly one POST with the parsed body and the mode-dependent headers. -/
theorem run_requests (tool : D3PTool) (parseJson : String → Option Json)
    (transport : HttpRequest → HttpResponse) (payload : String) (data : Json)
    (h : parseJson payload = some data) :
    (run tool parseJson transport payload).2
      = [⟨tool.endpoint, data, mkHeaders tool.mock_payments⟩] := by
  simp only [run, h]
  split
  · rfl
  · split <;> rfl

/-- Claim C1 counterexample: a dispatch through the OpenAI adapter whose
raw arguments are not valid JSON answers with the error text
"Invalid JSON arguments", not the "Invalid JSON payload" the claim
requires, while issuing zero outbound requests. -/
theorem c1_invalid_json_counterexample :
    (execute [("d3p_alpha", svcAlpha)] true (fun _ => none)
        (fun _ => ⟨200, none, ""⟩) "d3p_alpha" "not json").1
      = .jsonOut (.obj [("error", .str "Invalid JSON arguments")]) ∧
    (execute [("d3p_alpha", svcAlpha)] true (fun _ => none)
        (fun _ => ⟨200, none, ""⟩) "d3p_alpha" "not json").2 = [] ∧
    "Invalid JSON arguments" ≠ "Invalid JSON payload" :=
  ⟨rfl, rfl, by decide⟩

/-- Claim C1 (amended): a dispatch whose raw arguments fail to parse as
JSON returns a structured error object and issues zero outbound requests,
never an exception; the error text is adapter-specific — "Invalid JSON
arguments" for the OpenAI shim, "Invalid JSON" for the MCP shim, and
"Invalid JSON payload" for the LangChain/CrewAI shims. -/
theorem c1_invalid_json_structured :
    (∀ services mock parseJson transport fn args svc,
      dictGet fn services = some svc → parseJson args = none →
      execute services mock parseJson transport fn args
        = (.jsonOut (.obj [("error", .str "Invalid JSON arguments")]), [])) ∧
    (∀ mock parseJson transport endpoint sats params,
      parseJson params = none →
      tool_fn mock parseJson transport endpoint sats params
        = (.obj [("error", .str "Invalid JSON")], [])) ∧
    (∀ tool parseJson transport payload,
      parseJson payload = none →
      run tool parseJson transport payload
        = (.jsonOut (.obj [("error", .str "Invalid JSON payload")]), [])) := by
  refine ⟨?_, ?_, ?_⟩
  · intro services mock parseJson transport fn args svc h1 h2
    simp [execute, h1, h2]
  · intro mock parseJson transport endpoint sats params h
    simp [tool_fn, h]
  · intro tool parseJson transport payload h
    simp [run, h]

/-- Witness for the amended C1 at concrete failing dispatches. -/
theorem c1_invalid_json_structured_witness :
    (dictGet "d3p_alpha" [("d3p_alpha", svcAlpha)] = some svcAlpha ∧
      execute [("d3p_alpha", svcAlpha)] true (fun _ => none)
          (fun _ => ⟨200, none, ""⟩) "d3p_alpha" "oops"
        = (.jsonOut (.obj [("error", .str "Invalid JSON arguments")]), [])) ∧
    (tool_fn true (fun _ => none) (fun _ => ⟨200, none, ""⟩)
        "https://h.example/e" 5 "oops"
      = (.obj [("error", .str "Invalid JSON")], [])) ∧
    (run (buildTool "alpha" none true "https://h.example") (fun _ => none)
        (fun _ => ⟨200, none, ""⟩) "oops"
      = (.jsonOut (.obj [("error", .str "Invalid JSON payload")]), [])) :=
  ⟨⟨rfl, c1_invalid_json_structured.1 [("d3p_alpha", svcAlpha)] true
      (fun _ => none) (fun _ => ⟨200, none, ""⟩) "d3p_alpha" "oops" svcAlpha rfl rfl⟩,
   c1_invalid_json_structured.2.1 true (fun _ => none) (fun _ => ⟨200, none, ""⟩)
     "https://h.example/e" 5 "oops" rfl,
   c1_invalid_json_structured.2.2 (buildTool "alpha" none true "https://h.example")
     (fun _ => none) (fun _ => ⟨200, none, ""⟩) "oops" rfl⟩

/-- Claim C3: dispatch against a tool name absent from the loaded table
returns a structured unknown-tool error and issues no outbound request. -/
theorem c3_unknown_tool_no_call :
    ∀ services mock parseJson transport fn args,
      dictGet fn services = none →
      execute services mock parseJson transport fn args
        = (.jsonOut (.obj [("error", .str ("Unknown function: " ++ fn))]), []) := by
  intro services mock parseJson transport fn args h
  simp [execute, h]

/-- Witness for C3 at a concrete unknown tool name. -/
theorem c3_unknown_tool_no_call_witness :
    dictGet "d3p_missing" [("d3p_alpha", svcAlpha)] = none ∧
    execute [("d3p_alpha", svcAlpha)] true (fun _ => none)
        (fun _ => ⟨200, none, ""⟩) "d3p_missing" "payload"
      = (.jsonOut (.obj [("error", .str ("Unknown function: " ++ "d3p_missing"))]), []) :=
  ⟨rfl, c3_unknown_tool_no_call [("d3p_alpha", svcAlpha)] true (fun _ => none)
    (fun _ => ⟨200, none, ""⟩) "d3p_missing" "payload" rfl⟩

/-- Claim C2: in mock mode every outbound request carries the
`X-D3P-Cert-Test: true` bypass header; in live mode no such header is
attached; and a live-mode dispatch whose response is HTTP 402 yields the
structured payment-required result (error, status 402, message carrying
the descriptor's price in sats) while issuing exactly one outbound
request, so the call is never retried automatically.  Stated for the
OpenAI dispatcher and the LangChain/CrewAI dispatcher. -/
theorem c2_payment_gating :
    (∀ services parseJson transport fn args svc data,
      dictGet fn services = some svc → parseJson args = some data →
      (execute services true parseJson transport fn args).2
        = [⟨svc.endpoint, data,
            [("Content-Type", "application/json"), ("X-D3P-Cert-Test", "true")]⟩]) ∧
    (∀ services parseJson transport fn args svc data,
      dictGet fn services = some svc → parseJson args = some data →
      (execute services false parseJson transport fn args).2
        = [⟨svc.endpoint, data, [("Content-Type", "application/json")]⟩]) ∧
    (∀ services parseJson transport fn args svc data,
      dictGet fn services = some svc → parseJson args = some data →
      (transport ⟨svc.endpoint, data, mkHeaders false⟩).status_code = 402 →
      (execute services false parseJson transport fn args).1
        = .jsonOut (.obj [("error", .str "L402 payment required"),
            ("status", .num 402),
            ("message", .str ("Service requires " ++
              toString (Service.entry svc).sats ++ " sats via Lightning"))]) ∧
      (execute services false parseJson transport fn args).2.length = 1) ∧
    (∀ tool parseJson transport payload data,
      D3PTool.mock_payments tool = true → parseJson payload = some data →
      (run tool parseJson transport payload).2
        = [⟨tool.endpoint, data,
            [("Content-Type", "application/json"), ("X-D3P-Cert-Test", "true")]⟩]) ∧
    (∀ tool parseJson transport payload data,
      D3PTool.mock_payments tool = false → parseJson payload = some data →
      (run tool parseJson transport payload).2
        = [⟨tool.endpoint, data, [("Content-Type", "application/json")]⟩]) ∧
    (∀ tool parseJson transport payload data,
      D3PTool.mock_payments tool = false → parseJson payload = some data →
      (transport ⟨tool.endpoint, data, mkHeaders false⟩).status_code = 402 →
      (run tool parseJson transport payload).1
        = .jsonOut (.obj [("error", .str "L402 payment required"),
            ("status", .num 402),
            ("message", .str ("Service requires " ++
              toString tool.pricing_sats ++ " sats via Lightning"))])) := by
  refine ⟨?_, ?_, ?_, ?_, ?_, ?_⟩
  · intro services parseJson transport fn args svc data h1 h2
    rw [execute_requests services true parseJson transport fn args svc data h1 h2]
    rfl
  · intro services parseJson transport fn args svc data h1 h2
    rw [execute_requests services false parseJson transport fn args svc data h1 h2]
    rfl
  · intro services parseJson transport fn args svc data h1 h2 h402
    constructor
    · simp only [execute, h1, h2]
      rw [if_pos ⟨h402, trivial⟩]
      rfl
    · rw [execute_requests services false parseJson transport fn args svc data h1 h2]
      rfl
  · intro tool parseJson transport payload data hm h2
    rw [run_requests tool parseJson transport payload data h2, hm]
    rfl
  · intro tool parseJson transport payload data hm h2
    rw [run_requests tool parseJson transport payload data h2, hm]
    rfl
  · intro tool parseJson transport payload data hm h2 h402
    simp only [run, h2, hm]
    rw [if_pos ⟨h402, trivial⟩]
    rfl

/-- A concrete live-mode tool used in the C2 witness. -/
theorem c2_payment_gating_witness :
    (dictGet "d3p_alpha" [("d3p_alpha", svcAlpha)] = some svcAlpha ∧
      (execute [("d3p_alpha", svcAlpha)] true (fun _ => some .null)
          (fun _ => ⟨402, none, "pay up"⟩) "d3p_alpha" "x").2
        = [⟨"https://h.example/api/services/alpha", .null,
            [("Content-Type", "application/json"), ("X-D3P-Cert-Test", "true")]⟩]) ∧
    ((execute [("d3p_alpha", svcAlpha)] false (fun _ => some .null)
          (fun _ => ⟨402, none, "pay up"⟩) "d3p_alpha" "x").2
        = [⟨"https://h.example/api/services/alpha", .null,
            [("Content-Type", "application/json")]⟩]) ∧
    ((execute [("d3p_alpha", svcAlpha)] false (fun _ => some .null)
          (fun _ => ⟨402, none, "pay up"⟩) "d3p_alpha" "x").1
        = .jsonOut (.obj [("error", .str "L402 payment required"),
            ("status", .num 402),
            ("message", .str "Service requires 0 sats via Lightning")]) ∧
      (execute [("d3p_alpha", svcAlpha)] false (fun _ => some .null)
          (fun _ => ⟨402, none, "pay up"⟩) "d3p_alpha" "x").2.length = 1) ∧
    ((run (buildTool "alpha" none true "https://h.example") (fun _ => some .null)
          (fun _ => ⟨402, none, "pay up"⟩) "x").2
        = [⟨"https://h.example/api/services/alpha", .null,
            [("Content-Type", "application/json"), ("X-D3P-Cert-Test", "true")]⟩]) ∧
    ((run (buildTool "alpha" none false "https://h.example") (fun _ => some .null)
          (fun _ => ⟨402, none, "pay up"⟩) "x").2
        = [⟨"https://h.example/api/services/alpha", .null,
            [("Content-Type", "application/json")]⟩]) ∧
    ((run (buildTool "alpha" none false "https://h.example") (fun _ => some .null)
          (fun _ => ⟨402, none, "pay up"⟩) "x").1
        = .jsonOut (.obj [("error", .str "L402 payment required"),
            ("status", .num 402),
            ("message", .str "Service requires 0 sats via Lightning")])) :=
  ⟨⟨rfl, c2_payment_gating.1 [("d3p_alpha", svcAlpha)] (fun _ => some .null)
      (fun _ => ⟨402, none, "pay up"⟩) "d3p_alpha" "x" svcAlpha .null rfl rfl⟩,
   c2_payment_gating.2.1 [("d3p_alpha", svcAlpha)] (fun _ => some .null)
     (fun _ => ⟨402, none, "pay up"⟩) "d3p_alpha" "x" svcAlpha .null rfl rfl,
   c2_payment_gating.2.2.1 [("d3p_alpha", svcAlpha)] (fun _ => some .null)
     (fun _ => ⟨402, none, "pay up"⟩) "d3p_alpha" "x" svcAlpha .null rfl rfl rfl,
   c2_payment_gating.2.2.2.1 (buildTool "alpha" none true "https://h.example")
     (fun _ => some .null) (fun _ => ⟨402, none, "pay up"⟩) "x" .null rfl rfl,
   c2_payment_gating.2.2.2.2.1 (buildTool "alpha" none false "https://h.example")
     (fun _ => some .null) (fun _ => ⟨402, none, "pay up"⟩) "x" .null rfl rfl,
   c2_payment_gating.2.2.2.2.2 (buildTool "alpha" none false "https://h.example")
     (fun _ => some .null) (fun _ => ⟨402, none, "pay up"⟩) "x" .null rfl rfl rfl⟩

/-- Claim C4: when the response is not a live-mode 402, a JSON body is
returned verbatim as the payload, and a non-JSON body is replaced by at
most its first 500 characters (wrapped with the status code by the MCP
shim), so the result stays bounded.  Stated for the OpenAI dispatcher and
the MCP service call. -/
theorem c4_response_normalisation :
    (∀ services mock parseJson transport fn args svc data,
      dictGet fn services = some svc → parseJson args = some data →
      ¬((transport ⟨svc.endpoint, data, mkHeaders mock⟩).status_code = 402 ∧
          mock = false) →
      (∀ j, (transport ⟨svc.endpoint, data, mkHeaders mock⟩).json = some j →
        (execute services mock parseJson transport fn args).1 = .jsonOut j) ∧
      ((transport ⟨svc.endpoint, data, mkHeaders mock⟩).json = none →
        (execute services mock parseJson transport fn args).1
          = .textOut (pyslice (transport ⟨svc.endpoint, data, mkHeaders mock⟩).text 500) ∧
        (pyslice (transport ⟨svc.endpoint, data, mkHeaders mock⟩).text 500).length ≤ 500)) ∧
    (∀ mock transport endpoint data sats,
      ¬((transport ⟨endpoint, data, mkHeaders mock⟩).status_code = 402 ∧
          mock = false) →
      (∀ j, (transport ⟨endpoint, data, mkHeaders mock⟩).json = some j →
        (call_service mock transport endpoint data sats).1 = j) ∧
      ((transport ⟨endpoint, data, mkHeaders mock⟩).json = none →
        (call_service mock transport endpoint data sats).1
          = .obj [("raw", .str (pyslice (transport ⟨endpoint, data, mkHeaders mock⟩).text 500)),
                  ("status", .num ((transport ⟨endpoint, data, mkHeaders mock⟩).status_code : Int))] ∧
        (pyslice (transport ⟨endpoint, data, mkHeaders mock⟩).text 500).length ≤ 500)) := by
  constructor
  · intro services mock parseJson transport fn args svc data h1 h2 hcond
    constructor
    · intro j hj
      simp only [execute, h1, h2]
      rw [if_neg hcond, hj]
    · intro hnone
      refine ⟨?_, pyslice_le _ _⟩
      simp only [execute, h1, h2]
      rw [if_neg hcond, hnone]
  · intro mock transport endpoint data sats hcond
    constructor
    · intro j hj
      simp only [call_service]
      rw [if_neg hcond, hj]
    · intro hnone
      refine ⟨?_, pyslice_le _ _⟩
      simp only [call_service]
      rw [if_neg hcond, hnone]

/-- Witness for C4: the round-trip example (a JSON body is handed back
verbatim) and a non-JSON body truncated to its bounded prefix. -/
theorem c4_response_normalisation_witness :
    (dictGet "d3p_alpha" [("d3p_alpha", svcAlpha)] = some svcAlpha ∧
      ¬(((fun _ => (⟨200, some (.obj [("price", .num 50000)]), "raw"⟩ : HttpResponse))
            (⟨svcAlpha.endpoint, .obj [("currency", .str "usd")], mkHeaders true⟩ : HttpRequest)).status_code = 402 ∧
          true = false) ∧
      (execute [("d3p_alpha", svcAlpha)] true
          (fun _ => some (.obj [("currency", .str "usd")]))
          (fun _ => ⟨200, some (.obj [("price", .num 50000)]), "raw"⟩)
          "d3p_alpha" "arg").1
        = .jsonOut (.obj [("price", .num 50000)])) ∧
    ((execute [("d3p_alpha", svcAlpha)] true
          (fun _ => some (.obj [("currency", .str "usd")]))
          (fun _ => ⟨500, none, "server exploded"⟩)
          "d3p_alpha" "arg").1
        = .textOut "server exploded" ∧
      (pyslice "server exploded" 500).length ≤ 500) ∧
    ((call_service true (fun _ => ⟨500, none, "server exploded"⟩)
          "https://h.example/e" .null 5).1
        = .obj [("raw", .str "server exploded"), ("status", .num 500)]) :=
  ⟨⟨rfl, by decide,
    (c4_response_normalisation.1 [("d3p_alpha", svcAlpha)] true
        (fun _ => some (.obj [("currency", .str "usd")]))
        (fun _ => ⟨200, some (.obj [("price", .num 50000)]), "raw"⟩)
        "d3p_alpha" "arg" svcAlpha (.obj [("currency", .str "usd")]) rfl rfl
        (by decide)).1 (.obj [("price", .num 50000)]) rfl⟩,
   ⟨((c4_response_normalisation.1 [("d3p_alpha", svcAlpha)] true
        (fun _ => some (.obj [("currency", .str "usd")]))
        (fun _ => ⟨500, none, "server exploded"⟩)
        "d3p_alpha" "arg" svcAlpha (.obj [("currency", .str "usd")]) rfl rfl
        (by decide)).2 rfl).1,
    ((c4_response_normalisation.1 [("d3p_alpha", svcAlpha)] true
        (fun _ => some (.obj [("currency", .str "usd")]))
        (fun _ => ⟨500, none, "server exploded"⟩)
        "d3p_alpha" "arg" svcAlpha (.obj [("currency", .str "usd")]) rfl rfl
        (by decide)).2 rfl).2⟩,
   ((c4_response_normalisation.2 true (fun _ => ⟨500, none, "server exploded"⟩)
        "https://h.example/e" .null 5 (by decide)).2 rfl).1⟩

/-- Claim C10: in mock payment mode an HTTP 402 is not a payment error —
the payment branch requires live mode, so a mock-mode 402 takes the
ordinary response path: the JSON body, or the bounded text fragment, is
returned exactly as for any other status.  Stated for the OpenAI
dispatcher and the MCP service call. -/
theorem c10_mock_402_ordinary_path :
    (∀ services parseJson transport fn args svc data,
      dictGet fn services = some svc → parseJson args = some data →
      (transport ⟨svc.endpoint, data, mkHeaders true⟩).status_code = 402 →
      (∀ j, (transport ⟨svc.endpoint, data, mkHeaders true⟩).json = some j →
        (execute services true parseJson transport fn args).1 = .jsonOut j) ∧
      ((transport ⟨svc.endpoint, data, mkHeaders true⟩).json = none →
        (execute services true parseJson transport fn args).1
          = .textOut (pyslice (transport ⟨svc.endpoint, data, mkHeaders true⟩).text 500))) ∧
    (∀ transport endpoint data sats,
      (transport ⟨endpoint, data, mkHeaders true⟩).status_code = 402 →
      (∀ j, (transport ⟨endpoint, data, mkHeaders true⟩).json = some j →
        (call_service true transport endpoint data sats).1 = j) ∧
      ((transport ⟨endpoint, data, mkHeaders true⟩).json = none →
        (call_service true transport endpoint data sats).1
          = .obj [("raw", .str (pyslice (transport ⟨endpoint, data, mkHeaders true⟩).text 500)),
                  ("status", .num 402)])) := by
  constructor
  · intro services parseJson transport fn args svc data h1 h2 h402
    constructor
    · intro j hj
      simp [execute, h1, h2, hj]
    · intro hnone
      simp [execute, h1, h2, hnone]
  · intro transport endpoint data sats h402
    constructor
    · intro j hj
      simp [call_service, hj]
    · intro hnone
      simp [call_service, hnone, h402]

/-- Witness for C10: a mock-mode dispatch whose transport answers 402
with a JSON body still returns that body verbatim, and the MCP variant
wraps a non-JSON 402 body as raw text with the status. -/
theorem c10_mock_402_ordinary_path_witness :
    (dictGet "d3p_alpha" [("d3p_alpha", svcAlpha)] = some svcAlpha ∧
      ((fun _ => (⟨402, some (.obj [("ok", .bool true)]), "т"⟩ : HttpResponse))
          (⟨svcAlpha.endpoint, .null, mkHeaders true⟩ : HttpRequest)).status_code = 402 ∧
      (execute [("d3p_alpha", svcAlpha)] true (fun _ => some .null)
          (fun _ => ⟨402, some (.obj [("ok", .bool true)]), "т"⟩)
          "d3p_alpha" "arg").1
        = .jsonOut (.obj [("ok", .bool true)])) ∧
    ((call_service true (fun _ => ⟨402, none, "please pay"⟩)
          "https://h.example/e" .null 5).1
        = .obj [("raw", .str "please pay"), ("status", .num 402)]) :=
  ⟨⟨rfl, by decide,
    (c10_mock_402_ordinary_path.1 [("d3p_alpha", svcAlpha)] (fun _ => some .null)
        (fun _ => ⟨402, some (.obj [("ok", .bool true)]), "т"⟩)
        "d3p_alpha" "arg" svcAlpha .null rfl rfl (by decide)).1
      (.obj [("ok", .bool true)]) rfl⟩,
   (c10_mock_402_ordinary_path.2 (fun _ => ⟨402, none, "please pay"⟩)
        "https://h.example/e" .null 5 (by decide)).2 rfl⟩

/-- Claim C9 counterexample: listing a service whose manifest entry has no
`name` yields a record whose display name is the empty string, not the
service id the claim requires. -/
theorem c9_display_name_counterexample :
    mcp_list_services [mkService "https://h.example" entryNoName]
      = [⟨"svc-x", "", "cat", 3, "does things"⟩] ∧
    (mcp_list_services [mkService "https://h.example" entryNoName]).map
        McpServiceSummary.name ≠ [entryNoName.service_id] :=
  ⟨by decide, by decide⟩

/-- Claim C9 (amended): the MCP listing returns, per loaded service and in
manifest order, a record with exactly the fields service id, display
name, category, price in sats and description, each projected from the
stored entry — but the display name of a service without a `name` defaults
to the empty string, not its service id; the OpenAI listing analogously
returns the function name, service id, name, category and price (no
description). -/
theorem c9_listing_projection :
    (∀ services : List Service,
      (mcp_list_services services).length = services.length) ∧
    (∀ (services : List Service) (i : Nat) (h : i < services.length)
        (h2 : i < (mcp_list_services services).length),
      (mcp_list_services services)[i]
        = ⟨(services[i]).entry.service_id,
           (services[i]).entry.name.getD "",
           (services[i]).entry.capability_category.getD "",
           (services[i]).entry.sats,
           (services[i]).entry.description.getD ""⟩) ∧
    (∀ table : List (String × Service),
      (list_services table).length = table.length) ∧
    (∀ (table : List (String × Service)) (i : Nat) (h : i < table.length)
        (h2 : i < (list_services table).length),
      (list_services table)[i]
        = ⟨(table[i]).1,
           (table[i]).2.entry.service_id,
           (table[i]).2.entry.name.getD "",
           (table[i]).2.entry.capability_category.getD "",
           (table[i]).2.entry.sats⟩) := by
  refine ⟨?_, ?_, ?_, ?_⟩
  · intro services
    simp [mcp_list_services]
  · intro services i h h2
    simp [mcp_list_services]
  · intro table
    simp [list_services]
  · intro table i h h2
    simp [list_services]

/-- Witness for the amended C9 at a concrete two-service table. -/
theorem c9_listing_projection_witness :
    ((mcp_list_services [svcAlpha, mkService "https://h.example" entryNoName]).length
        = [svcAlpha, mkService "https://h.example" entryNoName].length) ∧
    (1 < ([svcAlpha, mkService "https://h.example" entryNoName] : List Service).length ∧
      1 < (mcp_list_services [svcAlpha, mkService "https://h.example" entryNoName]).length ∧
      (mcp_list_services [svcAlpha, mkService "https://h.example" entryNoName])[1]
        = ⟨"svc-x", "", "cat", 3, "does things"⟩) ∧
    (0 < ([("d3p_alpha", svcAlpha)] : List (String × Service)).length ∧
      0 < (list_services [("d3p_alpha", svcAlpha)]).length ∧
      (list_services [("d3p_alpha", svcAlpha)])[0]
        = ⟨"d3p_alpha", "alpha", "", "", 0⟩) :=
  ⟨c9_listing_projection.1 [svcAlpha, mkService "https://h.example" entryNoName],
   ⟨by decide, by decide,
    c9_listing_projection.2.1 [svcAlpha, mkService "https://h.example" entryNoName]
      1 (by decide) (by decide)⟩,
   ⟨by decide, by decide,
    c9_listing_projection.2.2.2 [("d3p_alpha", svcAlpha)] 0 (by decide) (by decide)⟩⟩
